import Mathlib

/-!
Verification of the SCALE encode/decode pipeline for the `PopApiError`
taxonomy (src/main.rs of scale_fun).

Bytes are modelled as `Fin 256`.  The derived SCALE `Encode` writes one
discriminant byte per tagged-union level (the variant's zero-based
declaration position) followed by the payload bytes in field order; the
derived SCALE `Decode` reads the discriminant byte and fails (`none`) on an
unrecognized value.  `Vec::resize(4, 0)` is `resize4`; `u32` encoding is
4 little-endian bytes.  The Rust helper functions unwrap `Result`s, so the
embedding gives them `Option` results: `none` is the panicking unwrap.
-/

abbrev Byte := Fin 256

structure ModuleError where
  index : Byte
  error : Byte
deriving DecidableEq

inductive FungiblesError where
  | AssetNotLive
  | BelowMinimum
  | InsufficientAllowance
  | InsufficientBalance
  | InUse
  | MinBalanceZero
  | NoAccount
  | NoPermission
  | Unknown
deriving DecidableEq

inductive UseCaseError where
  | Fungibles (e : FungiblesError)
deriving DecidableEq

inductive TokenError where
  | Unknown
deriving DecidableEq

inductive ArithmeticError where
  | Overflow
deriving DecidableEq

inductive TransactionalError where
  | MaxLayersReached
deriving DecidableEq

inductive PopApiError where
  | Other (code : Byte)
  | CannotLookup
  | BadOrigin
  | Module (m : ModuleError)
  | ConsumerRemaining
  | NoProviders
  | TooManyConsumers
  | Token (t : TokenError)
  | Arithmetic (a : ArithmeticError)
  | Transactional (t : TransactionalError)
  | Exhausted
  | Corruption
  | Unavailable
  | RootNotAllowed
  | UseCase (u : UseCaseError)
  | Unspecified (dispatch_error_index : Byte) (error_index : Byte) (error : Byte)
deriving DecidableEq

def FungiblesError.encode : FungiblesError → List Byte
  | .AssetNotLive => [0]
  | .BelowMinimum => [1]
  | .InsufficientAllowance => [2]
  | .InsufficientBalance => [3]
  | .InUse => [4]
  | .MinBalanceZero => [5]
  | .NoAccount => [6]
  | .NoPermission => [7]
  | .Unknown => [8]

def UseCaseError.encode : UseCaseError → List Byte
  | .Fungibles e => 0 :: e.encode

def TokenError.encode : TokenError → List Byte
  | .Unknown => [0]

def ArithmeticError.encode : ArithmeticError → List Byte
  | .Overflow => [0]

def TransactionalError.encode : TransactionalError → List Byte
  | .MaxLayersReached => [0]

def ModuleError.encode (m : ModuleError) : List Byte :=
  [m.index, m.error]

def PopApiError.encode : PopApiError → List Byte
  | .Other code => [0, code]
  | .CannotLookup => [1]
  | .BadOrigin => [2]
  | .Module m => 3 :: m.encode
  | .ConsumerRemaining => [4]
  | .NoProviders => [5]
  | .TooManyConsumers => [6]
  | .Token t => 7 :: t.encode
  | .Arithmetic a => 8 :: a.encode
  | .Transactional t => 9 :: t.encode
  | .Exhausted => [10]
  | .Corruption => [11]
  | .Unavailable => [12]
  | .RootNotAllowed => [13]
  | .UseCase u => 14 :: u.encode
  | .Unspecified i j k => [15, i, j, k]

def FungiblesError.decode : List Byte → Option (FungiblesError × List Byte)
  | [] => none
  | b :: rest =>
    match b.val with
    | 0 => some (.AssetNotLive, rest)
    | 1 => some (.BelowMinimum, rest)
    | 2 => some (.InsufficientAllowance, rest)
    | 3 => some (.InsufficientBalance, rest)
    | 4 => some (.InUse, rest)
    | 5 => some (.MinBalanceZero, rest)
    | 6 => some (.NoAccount, rest)
    | 7 => some (.NoPermission, rest)
    | 8 => some (.Unknown, rest)
    | _ => none

def UseCaseError.decode : List Byte → Option (UseCaseError × List Byte)
  | [] => none
  | b :: rest =>
    match b.val with
    | 0 => (FungiblesError.decode rest).map (fun p => (.Fungibles p.1, p.2))
    | _ => none

def TokenError.decode : List Byte → Option (TokenError × List Byte)
  | [] => none
  | b :: rest =>
    match b.val with
    | 0 => some (.Unknown, rest)
    | _ => none

def ArithmeticError.decode : List Byte → Option (ArithmeticError × List Byte)
  | [] => none
  | b :: rest =>
    match b.val with
    | 0 => some (.Overflow, rest)
    | _ => none

def TransactionalError.decode : List Byte → Option (TransactionalError × List Byte)
  | [] => none
  | b :: rest =>
    match b.val with
    | 0 => some (.MaxLayersReached, rest)
    | _ => none

def ModuleError.decode : List Byte → Option (ModuleError × List Byte)
  | i :: e :: rest => some (⟨i, e⟩, rest)
  | _ => none

def PopApiError.decode : List Byte → Option (PopApiError × List Byte)
  | [] => none
  | b :: rest =>
    match b.val with
    | 0 =>
      match rest with
      | [] => none
      | code :: r => some (.Other code, r)
    | 1 => some (.CannotLookup, rest)
    | 2 => some (.BadOrigin, rest)
    | 3 => (ModuleError.decode rest).map (fun p => (.Module p.1, p.2))
    | 4 => some (.ConsumerRemaining, rest)
    | 5 => some (.NoProviders, rest)
    | 6 => some (.TooManyConsumers, rest)
    | 7 => (TokenError.decode rest).map (fun p => (.Token p.1, p.2))
    | 8 => (ArithmeticError.decode rest).map (fun p => (.Arithmetic p.1, p.2))
    | 9 => (TransactionalError.decode rest).map (fun p => (.Transactional p.1, p.2))
    | 10 => some (.Exhausted, rest)
    | 11 => some (.Corruption, rest)
    | 12 => some (.Unavailable, rest)
    | 13 => some (.RootNotAllowed, rest)
    | 14 => (UseCaseError.decode rest).map (fun p => (.UseCase p.1, p.2))
    | 15 =>
      match rest with
      | i :: j :: k :: r => some (.Unspecified i j k, r)
      | _ => none
    | _ => none

/-- `Vec::resize(4, 0)`: pad with zero bytes up to length 4, truncate past 4. -/
def resize4 (l : List Byte) : List Byte :=
  (l ++ List.replicate (4 - l.length) (0 : Byte)).take 4

/-- `u32::decode`: read exactly 4 little-endian bytes; fail on fewer. -/
def u32decode : List Byte → Option Nat
  | b0 :: b1 :: b2 :: b3 :: _ =>
    some (b0.val + 256 * (b1.val + 256 * (b2.val + 256 * b3.val)))
  | _ => none

/-- `u32::encode`: the 4 little-endian bytes of the value. -/
def u32encode (value : Nat) : List Byte :=
  [⟨value % 256, by omega⟩, ⟨value / 256 % 256, by omega⟩,
   ⟨value / 65536 % 256, by omega⟩, ⟨value / 16777216 % 256, by omega⟩]

def encode_and_decode_to_u32 (error : PopApiError) : Option Nat :=
  u32decode (resize4 (PopApiError.encode error))

def encode_and_decode_to_pop_api_error (value : Nat) : Option PopApiError :=
  (PopApiError.decode (u32encode value)).map Prod.fst

/-! ## Helper lemmas -/

lemma roundtrip_bytes (b0 b1 b2 b3 : Byte) :
    u32encode (b0.val + 256 * (b1.val + 256 * (b2.val + 256 * b3.val)))
      = [b0, b1, b2, b3] := by
  have h0 := b0.isLt
  have h1 := b1.isLt
  have h2 := b2.isLt
  have h3 := b3.isLt
  simp only [u32encode, List.cons.injEq, and_true]
  refine ⟨Fin.ext ?_, Fin.ext ?_, Fin.ext ?_, Fin.ext ?_⟩ <;> simp <;> omega

lemma pipeline (v : PopApiError) (b0 b1 b2 b3 : Byte)
    (h : resize4 (PopApiError.encode v) = [b0, b1, b2, b3]) :
    (encode_and_decode_to_u32 v).bind encode_and_decode_to_pop_api_error
      = (PopApiError.decode [b0, b1, b2, b3]).map Prod.fst := by
  unfold encode_and_decode_to_u32
  rw [h]
  show encode_and_decode_to_pop_api_error
    (b0.val + 256 * (b1.val + 256 * (b2.val + 256 * b3.val))) = _
  unfold encode_and_decode_to_pop_api_error
  rw [roundtrip_bytes]

lemma decode_unknown_tag (b : Byte) (rest : List Byte) (h : 16 ≤ b.val) :
    PopApiError.decode (b :: rest) = none := by
  obtain ⟨bv, hlt⟩ := b
  have hb : 16 ≤ bv := h
  interval_cases bv <;> rfl

lemma decode_u32_eq (n : Nat) :
    encode_and_decode_to_pop_api_error n
      = (PopApiError.decode (u32encode n)).map Prod.fst := rfl

/-! ## Claim theorems -/

/-- C1: for every constructible taxonomy value `v` of `PopApiError` (including
all nested sub-taxonomy values), decoding the 4-byte/u32 encoding of `v`
reproduces `v` exactly. -/
theorem C1_roundtrip_every_variant (v : PopApiError) :
    (encode_and_decode_to_u32 v).bind encode_and_decode_to_pop_api_error = some v := by
  cases v with
  | Other code => exact (pipeline (.Other code) 0 code 0 0 rfl).trans rfl
  | CannotLookup => decide
  | BadOrigin => decide
  | Module m => exact (pipeline (.Module m) 3 m.index m.error 0 rfl).trans rfl
  | ConsumerRemaining => decide
  | NoProviders => decide
  | TooManyConsumers => decide
  | Token t => cases t; decide
  | Arithmetic a => cases a; decide
  | Transactional t => cases t; decide
  | Exhausted => decide
  | Corruption => decide
  | Unavailable => decide
  | RootNotAllowed => decide
  | UseCase u => obtain ⟨e⟩ := u; cases e <;> decide
  | Unspecified i j k => exact (pipeline (.Unspecified i j k) 15 i j k rfl).trans rfl

/-- C5: encoding is total: for every `PopApiError` value, the buffer passed to
`u32::decode` is exactly 4 bytes after the resize, so `u32decode` always
succeeds and `encode_and_decode_to_u32` is defined (the unwrap is unreachable). -/
theorem C5_encode_total (v : PopApiError) :
    (resize4 (PopApiError.encode v)).length = 4
      ∧ (encode_and_decode_to_u32 v).isSome = true := by
  cases v with
  | Token t => cases t; exact ⟨rfl, rfl⟩
  | Arithmetic a => cases a; exact ⟨rfl, rfl⟩
  | Transactional t => cases t; exact ⟨rfl, rfl⟩
  | UseCase u => obtain ⟨e⟩ := u; cases e <;> exact ⟨rfl, rfl⟩
  | _ => exact ⟨rfl, rfl⟩

/-- C6: encoding `Unspecified{dispatch_error_index:3, error_index:2, error:1}`
yields exactly discriminant byte 15 followed by payload bytes 3, 2, 1, and
decoding that sequence reproduces the original record. -/
theorem C6_unspecified_sample :
    PopApiError.encode (.Unspecified 3 2 1) = [15, 3, 2, 1]
      ∧ encode_and_decode_to_u32 (.Unspecified 3 2 1) = some 16909071
      ∧ encode_and_decode_to_pop_api_error 16909071 = some (.Unspecified 3 2 1) := by
  decide

/-- C7: encoding `Module(ModuleError{index:1, error:2})` produces discriminant
byte 3 (the variant's declaration position) followed by index then error and a
zero pad — bytes 3, 1, 2, 0 — and decoding that result reproduces the value. -/
theorem C7_module_sample :
    PopApiError.encode (.Module ⟨1, 2⟩) = [3, 1, 2]
      ∧ resize4 (PopApiError.encode (.Module ⟨1, 2⟩)) = [3, 1, 2, 0]
      ∧ (encode_and_decode_to_u32 (.Module ⟨1, 2⟩)).bind encode_and_decode_to_pop_api_error
          = some (.Module ⟨1, 2⟩) := by
  decide

/-- C8: encoding `UseCase(Fungibles(InsufficientBalance))` carries two nested
discriminant bytes — 14 (UseCase), 0 (Fungibles), 3 (InsufficientBalance) —
zero-padded to 4 bytes, and decoding the result reproduces the value. -/
theorem C8_use_case_sample :
    PopApiError.encode (.UseCase (.Fungibles .InsufficientBalance)) = [14, 0, 3]
      ∧ resize4 (PopApiError.encode (.UseCase (.Fungibles .InsufficientBalance)))
          = [14, 0, 3, 0]
      ∧ (encode_and_decode_to_u32
            (.UseCase (.Fungibles .InsufficientBalance))).bind
            encode_and_decode_to_pop_api_error
          = some (.UseCase (.Fungibles .InsufficientBalance)) := by
  decide

/-- C9: every `PopApiError` value SCALE-encodes to at most 4 bytes, so the
resize step only zero-pads and never discards bytes. -/
theorem C9_no_truncation (v : PopApiError) :
    (PopApiError.encode v).length ≤ 4
      ∧ resize4 (PopApiError.encode v)
          = PopApiError.encode v
              ++ List.replicate (4 - (PopApiError.encode v).length) (0 : Byte) := by
  cases v with
  | Token t => cases t; exact ⟨by simp [PopApiError.encode, TokenError.encode], rfl⟩
  | Arithmetic a =>
    cases a; exact ⟨by simp [PopApiError.encode, ArithmeticError.encode], rfl⟩
  | Transactional t =>
    cases t; exact ⟨by simp [PopApiError.encode, TransactionalError.encode], rfl⟩
  | UseCase u =>
    obtain ⟨e⟩ := u
    cases e <;>
      exact ⟨by simp [PopApiError.encode, UseCaseError.encode, FungiblesError.encode], rfl⟩
  | _ => exact ⟨by simp [PopApiError.encode, ModuleError.encode], rfl⟩

/-- C10: decode only examines the byte prefix it consumes: for every variant
whose encoding is shorter than 4 bytes, every 4-byte input sharing that
encoding as its prefix decodes to the same value whatever the remaining bytes
are; hence decode is not injective on its successful domain, and
encode ∘ decode is not the identity on some successfully decoded inputs. -/
theorem C10_prefix_only :
    (∀ (v : PopApiError) (ext : List Byte),
        (PopApiError.encode v).length < 4
          → (PopApiError.encode v ++ ext).length = 4
          → (PopApiError.decode (PopApiError.encode v ++ ext)).map Prod.fst = some v)
      ∧ (∃ x y : Nat, x ≠ y
            ∧ encode_and_decode_to_pop_api_error x = encode_and_decode_to_pop_api_error y
            ∧ (encode_and_decode_to_pop_api_error x).isSome = true)
      ∧ (∃ x : Nat, ∃ v : PopApiError,
            encode_and_decode_to_pop_api_error x = some v
              ∧ encode_and_decode_to_u32 v ≠ some x) := by
  refine ⟨?_,
    ⟨1, 257, by decide, by decide, by decide⟩,
    ⟨257, .CannotLookup, by decide, by decide⟩⟩
  intro v ext hshort hlen
  cases v with
  | Other code =>
    have hx : ext.length = 2 := by
      simp [PopApiError.encode] at hlen; omega
    obtain ⟨x, y, rfl⟩ := List.length_eq_two.mp hx
    rfl
  | CannotLookup =>
    have hx : ext.length = 3 := by
      simp [PopApiError.encode] at hlen; omega
    obtain ⟨x, y, z, rfl⟩ := List.length_eq_three.mp hx
    rfl
  | BadOrigin =>
    have hx : ext.length = 3 := by
      simp [PopApiError.encode] at hlen; omega
    obtain ⟨x, y, z, rfl⟩ := List.length_eq_three.mp hx
    rfl
  | Module m =>
    have hx : ext.length = 1 := by
      simp [PopApiError.encode, ModuleError.encode] at hlen; omega
    obtain ⟨x, rfl⟩ := List.length_eq_one.mp hx
    rfl
  | ConsumerRemaining =>
    have hx : ext.length = 3 := by
      simp [PopApiError.encode] at hlen; omega
    obtain ⟨x, y, z, rfl⟩ := List.length_eq_three.mp hx
    rfl
  | NoProviders =>
    have hx : ext.length = 3 := by
      simp [PopApiError.encode] at hlen; omega
    obtain ⟨x, y, z, rfl⟩ := List.length_eq_three.mp hx
    rfl
  | TooManyConsumers =>
    have hx : ext.length = 3 := by
      simp [PopApiError.encode] at hlen; omega
    obtain ⟨x, y, z, rfl⟩ := List.length_eq_three.mp hx
    rfl
  | Token t =>
    cases t
    have hx : ext.length = 2 := by
      simp [PopApiError.encode, TokenError.encode] at hlen; omega
    obtain ⟨x, y, rfl⟩ := List.length_eq_two.mp hx
    rfl
  | Arithmetic a =>
    cases a
    have hx : ext.length = 2 := by
      simp [PopApiError.encode, ArithmeticError.encode] at hlen; omega
    obtain ⟨x, y, rfl⟩ := List.length_eq_two.mp hx
    rfl
  | Transactional t =>
    cases t
    have hx : ext.length = 2 := by
      simp [PopApiError.encode, TransactionalError.encode] at hlen; omega
    obtain ⟨x, y, rfl⟩ := List.length_eq_two.mp hx
    rfl
  | Exhausted =>
    have hx : ext.length = 3 := by
      simp [PopApiError.encode] at hlen; omega
    obtain ⟨x, y, z, rfl⟩ := List.length_eq_three.mp hx
    rfl
  | Corruption =>
    have hx : ext.length = 3 := by
      simp [PopApiError.encode] at hlen; omega
    obtain ⟨x, y, z, rfl⟩ := List.length_eq_three.mp hx
    rfl
  | Unavailable =>
    have hx : ext.length = 3 := by
      simp [PopApiError.encode] at hlen; omega
    obtain ⟨x, y, z, rfl⟩ := List.length_eq_three.mp hx
    rfl
  | RootNotAllowed =>
    have hx : ext.length = 3 := by
      simp [PopApiError.encode] at hlen; omega
    obtain ⟨x, y, z, rfl⟩ := List.length_eq_three.mp hx
    rfl
  | UseCase u =>
    obtain ⟨e⟩ := u
    have hx : ext.length = 1 := by
      cases e <;> simp [PopApiError.encode, UseCaseError.encode, FungiblesError.encode] at hlen
        <;> omega
    obtain ⟨x, rfl⟩ := List.length_eq_one.mp hx
    cases e <;> rfl
  | Unspecified i j k =>
    simp [PopApiError.encode] at hshort

/-- C10 witness: the prefix-insensitivity clause at the concrete variant
`CannotLookup` (1-byte encoding) extended by the bytes [5, 6, 7]. -/
theorem C10_witness :
    (PopApiError.encode PopApiError.CannotLookup).length < 4
      ∧ (PopApiError.encode PopApiError.CannotLookup ++ [5, 6, 7]).length = 4
      ∧ (PopApiError.decode
            (PopApiError.encode PopApiError.CannotLookup ++ [5, 6, 7])).map Prod.fst
          = some PopApiError.CannotLookup :=
  ⟨by decide, by decide,
    C10_prefix_only.1 PopApiError.CannotLookup [5, 6, 7] (by decide) (by decide)⟩

lemma decode_u32_unknown (n : Nat) (h : 16 ≤ n % 256) :
    encode_and_decode_to_pop_api_error n = none := by
  have e : u32encode n
      = ⟨n % 256, by omega⟩ :: [⟨n / 256 % 256, by omega⟩,
          ⟨n / 65536 % 256, by omega⟩, ⟨n / 16777216 % 256, by omega⟩] := rfl
  rw [decode_u32_eq, e, decode_unknown_tag ⟨n % 256, by omega⟩ _ h]
  rfl

lemma token_decode_bad (b : Byte) (rest : List Byte) (h : 1 ≤ b.val) :
    TokenError.decode (b :: rest) = none := by
  obtain ⟨bv, hlt⟩ := b
  have hb : 1 ≤ bv := h
  interval_cases bv <;> rfl

lemma arithmetic_decode_bad (b : Byte) (rest : List Byte) (h : 1 ≤ b.val) :
    ArithmeticError.decode (b :: rest) = none := by
  obtain ⟨bv, hlt⟩ := b
  have hb : 1 ≤ bv := h
  interval_cases bv <;> rfl

lemma transactional_decode_bad (b : Byte) (rest : List Byte) (h : 1 ≤ b.val) :
    TransactionalError.decode (b :: rest) = none := by
  obtain ⟨bv, hlt⟩ := b
  have hb : 1 ≤ bv := h
  interval_cases bv <;> rfl

lemma usecase_decode_bad (b : Byte) (rest : List Byte) (h : 1 ≤ b.val) :
    UseCaseError.decode (b :: rest) = none := by
  obtain ⟨bv, hlt⟩ := b
  have hb : 1 ≤ bv := h
  interval_cases bv <;> rfl

lemma fungibles_decode_bad (b : Byte) (rest : List Byte) (h : 9 ≤ b.val) :
    FungiblesError.decode (b :: rest) = none := by
  obtain ⟨bv, hlt⟩ := b
  have hb : 9 ≤ bv := h
  interval_cases bv <;> rfl

lemma decode_tag7 (b : Byte) (rest : List Byte) (h : b.val = 7) :
    PopApiError.decode (b :: rest)
      = (TokenError.decode rest).map (fun p => (.Token p.1, p.2)) := by
  obtain ⟨bv, hlt⟩ := b
  have hb : bv = 7 := h
  subst hb
  rfl

lemma decode_tag8 (b : Byte) (rest : List Byte) (h : b.val = 8) :
    PopApiError.decode (b :: rest)
      = (ArithmeticError.decode rest).map (fun p => (.Arithmetic p.1, p.2)) := by
  obtain ⟨bv, hlt⟩ := b
  have hb : bv = 8 := h
  subst hb
  rfl

lemma decode_tag9 (b : Byte) (rest : List Byte) (h : b.val = 9) :
    PopApiError.decode (b :: rest)
      = (TransactionalError.decode rest).map (fun p => (.Transactional p.1, p.2)) := by
  obtain ⟨bv, hlt⟩ := b
  have hb : bv = 9 := h
  subst hb
  rfl

lemma decode_tag14 (b : Byte) (rest : List Byte) (h : b.val = 14) :
    PopApiError.decode (b :: rest)
      = (UseCaseError.decode rest).map (fun p => (.UseCase p.1, p.2)) := by
  obtain ⟨bv, hlt⟩ := b
  have hb : bv = 14 := h
  subst hb
  rfl

lemma usecase_tag0 (b : Byte) (rest : List Byte) (h : b.val = 0) :
    UseCaseError.decode (b :: rest)
      = (FungiblesError.decode rest).map (fun p => (.Fungibles p.1, p.2)) := by
  obtain ⟨bv, hlt⟩ := b
  have hb : bv = 0 := h
  subst hb
  rfl

/-- C2 counterexample: decode is not total — on input 16 (first byte 16, no
declared variant) the decode unwrap fails instead of returning a value. -/
theorem C2_counterexample : encode_and_decode_to_pop_api_error 16 = none := by
  decide

/-- C2 amended: decode is not total on all u32 inputs; whenever the first
(lowest) byte is 16 or more — matching no declared variant — the decode unwrap
fails (`none`) rather than returning a taxonomy value. -/
theorem C2_decode_fails_on_unknown_tag (n : Nat) (h : 16 ≤ n % 256) :
    encode_and_decode_to_pop_api_error n = none :=
  decode_u32_unknown n h

/-- C2 witness: the amended statement at the concrete input 17. -/
theorem C2_witness :
    16 ≤ 17 % 256 ∧ encode_and_decode_to_pop_api_error 17 = none :=
  ⟨by decide, C2_decode_fails_on_unknown_tag 17 (by decide)⟩

/-- C3 counterexample: on input 255 (first byte 255, unknown discriminant)
decode does not return `Unspecified{255, 0, 0}` — it fails entirely. -/
theorem C3_counterexample :
    encode_and_decode_to_pop_api_error 255 = none
      ∧ encode_and_decode_to_pop_api_error 255 ≠ some (.Unspecified 255 0 0) := by
  decide

/-- C3 amended: for every 4-byte input whose first byte matches no declared
variant position (is 16 or more), decode returns no value at all (the unwrap
fails); in particular it never returns the `Unspecified` fallback. -/
theorem C3_unknown_tag_no_value (b0 b1 b2 b3 : Byte) (h : 16 ≤ b0.val)
    (v : PopApiError) :
    encode_and_decode_to_pop_api_error
      (b0.val + 256 * (b1.val + 256 * (b2.val + 256 * b3.val))) ≠ some v := by
  rw [decode_u32_eq, roundtrip_bytes, decode_unknown_tag b0 _ h]
  simp

/-- C3 witness: the amended statement at the concrete bytes [16, 0, 0, 0]. -/
theorem C3_witness :
    16 ≤ (16 : Byte).val
      ∧ encode_and_decode_to_pop_api_error
          ((16 : Byte).val + 256 * ((0 : Byte).val
            + 256 * ((0 : Byte).val + 256 * (0 : Byte).val)))
          ≠ some PopApiError.CannotLookup :=
  ⟨by decide, C3_unknown_tag_no_value 16 0 0 0 (by decide) PopApiError.CannotLookup⟩

/-- C4 counterexample: the input 263 — bytes [7, 1, 0, 0], a `Token` tag with
unrecognized nested discriminant 1 — makes decode fail outright; it does not
return `Unspecified{7, 1, 0}`. -/
theorem C4_counterexample :
    encode_and_decode_to_pop_api_error 263 = none
      ∧ encode_and_decode_to_pop_api_error 263 ≠ some (.Unspecified 7 1 0) := by
  decide

/-- C4 amended: when the first byte selects a variant with a nested tagged
union (Token 7, Arithmetic 8, Transactional 9, UseCase 14) and the nested
discriminant byte is unrecognized within that sub-taxonomy, decode fails
(`none`) instead of falling back to `Unspecified`. -/
theorem C4_nested_unknown_fails (b0 b1 b2 b3 : Byte)
    (h : ((b0.val = 7 ∨ b0.val = 8 ∨ b0.val = 9 ∨ b0.val = 14) ∧ 1 ≤ b1.val)
       ∨ (b0.val = 14 ∧ b1.val = 0 ∧ 9 ≤ b2.val)) :
    encode_and_decode_to_pop_api_error
      (b0.val + 256 * (b1.val + 256 * (b2.val + 256 * b3.val))) = none := by
  rw [decode_u32_eq, roundtrip_bytes]
  rcases h with ⟨hb, h1⟩ | ⟨hb, h0, h9⟩
  · rcases hb with hb | hb | hb | hb
    · rw [decode_tag7 b0 _ hb, token_decode_bad b1 _ h1]; rfl
    · rw [decode_tag8 b0 _ hb, arithmetic_decode_bad b1 _ h1]; rfl
    · rw [decode_tag9 b0 _ hb, transactional_decode_bad b1 _ h1]; rfl
    · rw [decode_tag14 b0 _ hb, usecase_decode_bad b1 _ h1]; rfl
  · rw [decode_tag14 b0 _ hb, usecase_tag0 b1 _ h0, fungibles_decode_bad b2 _ h9]
    rfl

/-- C4 witness: the amended statement at the concrete bytes [7, 1, 0, 0]. -/
theorem C4_witness :
    encode_and_decode_to_pop_api_error
      ((7 : Byte).val + 256 * ((1 : Byte).val
        + 256 * ((0 : Byte).val + 256 * (0 : Byte).val))) = none :=
  C4_nested_unknown_fails 7 1 0 0 (by decide)
